import Mathlib

/-!
Shallow embedding of the language-client orchestration core of the
vscode-docker extension (`src/extension.ts`): backend discovery,
activation-time session selection (native vs. fallback dockerfile vs.
compose), deactivation, configuration-change handling, subprocess
command construction, and the compose telemetry middleware.

JavaScript values that matter to the control flow (undefined vs. string
settings, truthiness) are modelled explicitly; module-level mutable
client globals are modelled as an explicit record of optional clients.
-/

namespace VsCodeDocker

/-- The three language-server backends managed by the extension. -/
inductive BackendKind
  | native
  | fallbackDockerfile
  | compose
  deriving DecidableEq, Repr

/-- A document filter `{ language, scheme? }` as used in a vscode
`DocumentSelector`. -/
structure DocumentFilter where
  language : String
  scheme : Option String
  deriving DecidableEq, Repr

/-- `DOCUMENT_SELECTOR` from extension.ts: dockerfile documents on the
file scheme; shared by the native and fallback dockerfile clients. -/
def DOCUMENT_SELECTOR : List DocumentFilter :=
  [{ language := "dockerfile", scheme := some "file" }]

/-- The document selector of the compose language client:
`[{ language: 'dockercompose' }]` (no scheme restriction). -/
def composeDocumentSelector : List DocumentFilter :=
  [{ language := "dockercompose", scheme := none }]

/-- A text document as seen by the routing layer: language id + URI scheme. -/
structure TextDocument where
  languageId : String
  scheme : String
  deriving DecidableEq, Repr

/-- Whether a single document filter matches a document. -/
def filterMatches (f : DocumentFilter) (d : TextDocument) : Bool :=
  f.language == d.languageId &&
    (match f.scheme with
     | none => true
     | some s => s == d.scheme)

/-- Whether a document selector (list of filters) matches a document. -/
def selectorMatches (sel : List DocumentFilter) (d : TextDocument) : Bool :=
  sel.any (fun f => filterMatches f d)

/-- Transport kinds used by the clients (`TransportKind.stdio` for the
native client, `TransportKind.ipc` for the bundled servers). -/
inductive TransportKind
  | stdio
  | ipc
  deriving DecidableEq, Repr

/-- The workspace configuration keys the orchestration core reads.
`Option` models a possibly-undefined setting; `enableDockerComposeLanguageService`
is read with default `true` via `config.get(key, true)`. -/
structure DockerConfig where
  dockerPath : Option String
  dockerLspUser : Option String
  dockerLspWorkspace : Option String
  enableDockerComposeLanguageService : Option Bool
  deriving DecidableEq, Repr

/-- `config.get('enableDockerComposeLanguageService', true)`. -/
def composeEnabled (cfg : DockerConfig) : Bool :=
  cfg.enableDockerComposeLanguageService.getD true

/-- JS truthiness of a possibly-undefined string setting:
`!!x` is `false` for `undefined` and for the empty string. -/
def jsTruthy (x : Option String) : Bool :=
  match x with
  | none => false
  | some s => !(s == "")

/-- JS loose inequality `x != ""` for a possibly-undefined string:
`undefined != ""` is `true`; `s != ""` tests string inequality. -/
def jsNeqEmptyString (x : Option String) : Bool :=
  match x with
  | none => true
  | some s => !(s == "")

/-- `config.get('dockerPath') || 'docker'` — JS `||` falls through to
the default on `undefined` and on the empty string. -/
def dockerCommand (dockerPath : Option String) : String :=
  match dockerPath with
  | none => "docker"
  | some p => if p == "" then "docker" else p

/-- Argument construction of `activateDockerNativeLanguageClient`:
start from `["lsp", "listen"]`, then push `--user <u>` when
`!!user && user != ""`, then push `--workspace <w>` when
`!!workspace && workspace != ""`. -/
def nativeArgs (user workspace : Option String) : List String :=
  let args := ["lsp", "listen"]
  let args :=
    if jsTruthy user && jsNeqEmptyString user then
      args ++ ["--user", user.getD ""]
    else args
  if jsTruthy workspace && jsNeqEmptyString workspace then
    args ++ ["--workspace", workspace.getD ""]
  else args

/-- How a server subprocess is launched: either an executable command
(`run.command`) or a bundled node module script (`run.module`). -/
inductive ServerLaunch
  | command (command : String) (transport : TransportKind) (args : List String)
  | moduleScript (modulePath : String) (transport : TransportKind) (args : List String)
  deriving DecidableEq, Repr

/-- The `run` server options of the native docker LSP client. -/
def nativeServerRun (cfg : DockerConfig) : ServerLaunch :=
  .command (dockerCommand cfg.dockerPath) .stdio
    (nativeArgs cfg.dockerLspUser cfg.dockerLspWorkspace)

/-- `path.join("dist", "dockerfile-language-server-nodejs", "lib", "server.js")`. -/
def fallbackServerModule : String :=
  String.intercalate "/" ["dist", "dockerfile-language-server-nodejs", "lib", "server.js"]

/-- The `run` server options of the bundled dockerfile language client. -/
def fallbackServerRun : ServerLaunch :=
  .moduleScript fallbackServerModule .ipc ["--node-ipc"]

/-- `path.join("dist", "compose-language-service", "lib", "server.js")`. -/
def composeServerModule : String :=
  String.intercalate "/" ["dist", "compose-language-service", "lib", "server.js"]

/-- The `run` server options of the compose language client. -/
def composeServerRun : ServerLaunch :=
  .moduleScript composeServerModule .ipc ["--node-ipc"]

/-! ### Backend discovery (`discoverDockerLsp`) -/

/-- A JavaScript value returned by the capability probe
(`client.isLspInstalled()`), restricted to the shapes relevant to the
`if (result)` truthiness test. -/
inductive JsValue
  | undef
  | nullv
  | boolean (b : Bool)
  | str (s : String)
  | num (n : Int)
  deriving DecidableEq, Repr

/-- JS truthiness of a probe result. -/
def JsValue.truthy : JsValue → Bool
  | .undef => false
  | .nullv => false
  | .boolean b => b
  | .str s => !(s == "")
  | .num n => !(n == 0)

/-- The outcome of `ext.runWithDefaults(client => client.isLspInstalled())`:
either a resolved value, or a thrown error (missing binary, non-zero
exit, malformed response, timeout, ...). -/
inductive ProbeOutcome
  | resolved (result : JsValue)
  | thrown (message : String)
  deriving DecidableEq, Repr

/-- `discoverDockerLsp` from extension.ts: awaits the probe inside
`try`; returns `true` when the resolved result is truthy; any thrown
error is swallowed; all remaining paths return `false`. -/
def discoverDockerLsp (probe : ProbeOutcome) : Bool :=
  match probe with
  | .resolved result => if result.truthy then true else false
  | .thrown _ => false

/-! ### Activation (`activateInternal`, lines 131-138) -/

/-- One running language-client session: its backend kind, how its
server subprocess is launched, and the documents it serves. -/
structure Session where
  kind : BackendKind
  launch : ServerLaunch
  selector : List DocumentFilter
  deriving DecidableEq, Repr

/-- The session created by `activateDockerNativeLanguageClient`. -/
def nativeSession (cfg : DockerConfig) : Session :=
  { kind := .native, launch := nativeServerRun cfg, selector := DOCUMENT_SELECTOR }

/-- The session created by `activateDockerfileLanguageClient`. -/
def fallbackSession : Session :=
  { kind := .fallbackDockerfile, launch := fallbackServerRun,
    selector := DOCUMENT_SELECTOR }

/-- The session created by `activateComposeLanguageClient` (when the
compose language service is not disabled by configuration). -/
def composeSession : Session :=
  { kind := .compose, launch := composeServerRun,
    selector := composeDocumentSelector }

/-- The sessions created and started by `activateInternal`:
`if (await discoverDockerLsp()) activateDockerNativeLanguageClient(ctx)
else activateDockerfileLanguageClient(ctx); activateComposeLanguageClient(ctx)`.
The compose activation runs unconditionally but creates its session only
when the compose language service is enabled (otherwise it throws
`UserCancelledError` first, see `composeActivation`). -/
def startedSessions (discovery : Bool) (cfg : DockerConfig) : List Session :=
  (if discovery then [nativeSession cfg] else [fallbackSession]) ++
    (if composeEnabled cfg then [composeSession] else [])

/-! ### Module-level client globals and `deactivateInternal` -/

/-- The three module-level `let` client variables of extension.ts.
`none` models a variable that was never assigned (JS `undefined`). -/
structure ClientGlobals where
  dockerfileLanguageClient : Option BackendKind
  composeLanguageClient : Option BackendKind
  nativeClient : Option BackendKind
  deriving DecidableEq, Repr

/-- The client globals after `activateInternal` finishes: exactly one of
`nativeClient` / `dockerfileLanguageClient` is assigned (per the
discovery branch); `composeLanguageClient` is assigned unless the
compose language service is disabled (the `UserCancelledError` is thrown
before the assignment). -/
def globalsAfterActivation (discovery : Bool) (cfg : DockerConfig) : ClientGlobals :=
  { dockerfileLanguageClient := if discovery then none else some .fallbackDockerfile,
    composeLanguageClient := if composeEnabled cfg then some .compose else none,
    nativeClient := if discovery then some .native else none }

/-- What a run of `deactivateInternal`'s body observably did. -/
structure DeactivateOutcome where
  /-- The clients whose `stop()` was actually invoked, in evaluation
  order of the `Promise.all([...])` array literal. -/
  stopsInitiated : List BackendKind
  /-- Whether the `Promise.all` of all three stops was reached and
  awaited (requires all three member expressions to evaluate). -/
  allStopsAwaited : Bool
  /-- Whether evaluating the body threw (a `TypeError` from reading
  `.stop` on an undefined client); the error is captured by the
  `callWithTelemetryAndErrorHandling` wrapper, so `deactivateInternal`
  itself still resolves. -/
  threwInternally : Bool
  deriving DecidableEq, Repr

/-- `deactivateInternal` from extension.ts: inside the telemetry
wrapper it evaluates
`Promise.all([dockerfileLanguageClient.stop(), composeLanguageClient.stop(), nativeClient.stop()])`.
The array members evaluate left to right; reading `.stop` on an
undefined variable throws a `TypeError` at that point, so later members
never evaluate and the `Promise.all` is never constructed or awaited. -/
def deactivateInternal (g : ClientGlobals) : DeactivateOutcome :=
  match g.dockerfileLanguageClient with
  | none => { stopsInitiated := [], allStopsAwaited := false, threwInternally := true }
  | some _ =>
    match g.composeLanguageClient with
    | none =>
      { stopsInitiated := [.fallbackDockerfile], allStopsAwaited := false,
        threwInternally := true }
    | some _ =>
      match g.nativeClient with
      | none =>
        { stopsInitiated := [.fallbackDockerfile, .compose], allStopsAwaited := false,
          threwInternally := true }
      | some _ =>
        { stopsInitiated := [.fallbackDockerfile, .compose, .native],
          allStopsAwaited := true, threwInternally := false }

/-! ### Compose activation (`activateComposeLanguageClient`) -/

/-- The error shapes an activation callback can throw:
`UserCancelledError('languageServiceDisabled')` (the recognized
"service disabled" condition) versus a generic error. -/
inductive ActivationError
  | userCancelled (reason : String)
  | generic (message : String)
  deriving DecidableEq, Repr

/-- The observable steps of the compose activation callback, in order. -/
inductive ComposeStep
  | readConfiguration
  | constructClient
  | registerFeatures
  | registerTelemetryEvent
  | startClient
  deriving DecidableEq, Repr

/-- `activateComposeLanguageClient` from extension.ts: reads
`enableDockerComposeLanguageService` (default `true`) and throws
`UserCancelledError('languageServiceDisabled')` when it is `false`,
before the `LanguageClient` is constructed or started; otherwise it
constructs the client, registers features and the telemetry event, and
starts the client (spawning the server process). Returns the executed
steps and the thrown error, if any. -/
def composeActivation (cfg : DockerConfig) : List ComposeStep × Option ActivationError :=
  if composeEnabled cfg = false then
    ([.readConfiguration], some (.userCancelled "languageServiceDisabled"))
  else
    ([.readConfiguration, .constructClient, .registerFeatures,
      .registerTelemetryEvent, .startClient], none)

/-! ### Configuration-change events and registered handlers -/

/-- A coalesced configuration-change event, as the set of configuration
sections for which `e.affectsConfiguration(section)` returns `true`. -/
structure ConfigChangeEvent where
  affected : List String
  deriving DecidableEq, Repr

/-- `e.affectsConfiguration(sec)`. -/
def ConfigChangeEvent.affects (e : ConfigChangeEvent) (sec : String) : Bool :=
  e.affected.contains sec

/-- The observable actions a configuration-change handler can perform.
Session stop/start/restart and discovery constructors are included so
that their absence from every handler is statable. -/
inductive Action
  | reconfigureDockerClient
  | reconfigureComposeClient
  | setEnvironmentVariableContributions
  | notifyDidChangeConfigurationNull (target : BackendKind)
  | requestDockerLogin (target : BackendKind) (user workspace : Option String)
  | logInfo (target : BackendKind)
  | stopSession (kind : BackendKind)
  | startSession (kind : BackendKind)
  | runDiscovery
  deriving DecidableEq, Repr

/-- The `docker.command.changed` handler registered by
`registerDockerClients`: reconfigure the docker runtime client when
`docker.dockerPath` is affected, and the compose runtime client when
`docker.composeCommand` is affected. -/
def dockerCommandChangedHandler (e : ConfigChangeEvent) : List Action :=
  (if e.affects "docker.dockerPath" then [.reconfigureDockerClient] else []) ++
    (if e.affects "docker.composeCommand" then [.reconfigureComposeClient] else [])

/-- The `docker.environment.changed` handler registered by
`registerEnvironmentVariableContributions`: re-set the environment
variable contributions when `docker.environment` is affected. -/
def environmentChangedHandler (e : ConfigChangeEvent) : List Action :=
  if e.affects "docker.environment" then [.setEnvironmentVariableContributions] else []

/-- The handler registered by `Configuration.initializeConfiguration`
(namespace `Configuration`, `initialize` in the source) after the
fallback dockerfile client starts: unconditionally send the
`workspace/didChangeConfiguration` notification with `settings: null`
to the fallback language server. -/
def fallbackConfigurationHandler (_e : ConfigChangeEvent) : List Action :=
  [.notifyDidChangeConfigurationNull .fallbackDockerfile]

/-- The `onDidChangeConfiguration` handler registered inside
`activateDockerNativeLanguageClient`: log the event; when
`DockerLsp.User` or `DockerLsp.Workspace` is affected, log again and
send a `docker/login` request to the native client with the freshly
read user and workspace settings. `cfg` is the configuration as read at
handling time. -/
def nativeConfigChangedHandler (cfg : DockerConfig) (e : ConfigChangeEvent) : List Action :=
  [.logInfo .native] ++
    (if e.affects "DockerLsp.User" || e.affects "DockerLsp.Workspace" then
      [.logInfo .native,
       .requestDockerLogin .native cfg.dockerLspUser cfg.dockerLspWorkspace]
    else [])

/-- All actions performed by the configuration-change handlers
registered during an activation with discovery result `discovery`, for
one event `e` (`cfg` is the configuration read at handling time):
the environment handler and the runtime-client handler are always
registered; the native handler is registered exactly on the discovery
path, the fallback notification handler exactly on the fallback path;
the compose activation registers no configuration handler. -/
def configChangeActions (discovery : Bool) (cfg : DockerConfig)
    (e : ConfigChangeEvent) : List Action :=
  environmentChangedHandler e ++ dockerCommandChangedHandler e ++
    (if discovery then nativeConfigChangedHandler cfg e
     else fallbackConfigurationHandler e)

/-! ### Compose telemetry middleware (`compose-langserver-event`) -/

/-- A JS object used as a string-keyed map (telemetry `properties` /
`measurements`), modelled as a partial function from keys to values. -/
def JsMap (α : Type) : Type := String → Option α

/-- `Object.assign(target, source)`: every key of `source` overwrites
the corresponding key of `target`; keys absent from `source` keep the
target's value. -/
def objectAssign {α : Type} (target source : JsMap α) : JsMap α :=
  fun k =>
    match source k with
    | some v => some v
    | none => target k

/-- The telemetry slots of the `IActionContext` handed to the
`compose-langserver-event` handler. -/
structure TelemetryContext where
  properties : JsMap String
  measurements : JsMap Int
  suppressAll : Bool
  suppressIfSuccessful : Bool

/-- A `TelemetryEvent` notification from the compose language server. -/
structure ComposeTelemetryEvent where
  eventName : String
  suppressAll : Bool
  suppressIfSuccessful : Bool
  properties : JsMap String
  measurements : JsMap Int

/-- The `compose-langserver-event` handler body from
`activateComposeLanguageClient`: set
`properties.langServerEventName = evtArgs.eventName`, copy both
suppress flags, then `Object.assign` the event's measurements and
properties onto the context's maps. -/
def composeTelemetryHandler (context : TelemetryContext)
    (evtArgs : ComposeTelemetryEvent) : TelemetryContext :=
  let propsWithName : JsMap String := fun k =>
    if k == "langServerEventName" then some evtArgs.eventName else context.properties k
  { properties := objectAssign propsWithName evtArgs.properties,
    measurements := objectAssign context.measurements evtArgs.measurements,
    suppressAll := evtArgs.suppressAll,
    suppressIfSuccessful := evtArgs.suppressIfSuccessful }

/-! ### Sample concrete inputs used by witnesses -/

/-- A configuration with every setting undefined (all defaults). -/
def sampleConfig : DockerConfig :=
  { dockerPath := none, dockerLspUser := none, dockerLspWorkspace := none,
    enableDockerComposeLanguageService := none }

/-- A configuration with the compose language service disabled. -/
def sampleDisabledConfig : DockerConfig :=
  { dockerPath := none, dockerLspUser := none, dockerLspWorkspace := none,
    enableDockerComposeLanguageService := some false }

/-- A dockerfile document on the file scheme. -/
def sampleDockerfileDocument : TextDocument :=
  { languageId := "dockerfile", scheme := "file" }

/-- A telemetry context that already holds the measurement
`sharedKey = 1` before the compose event is intercepted. -/
def sampleTelemetryContext : TelemetryContext :=
  { properties := fun _ => none,
    measurements := fun k => if k == "sharedKey" then some 1 else none,
    suppressAll := false, suppressIfSuccessful := false }

/-- A compose telemetry event carrying the measurement `sharedKey = 2`. -/
def sampleTelemetryEvent : ComposeTelemetryEvent :=
  { eventName := "compose.completion",
    suppressAll := false, suppressIfSuccessful := true,
    properties := fun _ => none,
    measurements := fun k => if k == "sharedKey" then some 2 else none }

end VsCodeDocker

namespace VsCodeDocker

/-! ## Helper lemmas -/

/-- The nested truthiness-guarded pushes of
`activateDockerNativeLanguageClient` produce the flag sublists
`[--user u]` / `[--workspace w]` exactly for defined, non-empty
settings. -/
theorem nativeArgs_characterization (user workspace : Option String) :
    nativeArgs user workspace =
      ["lsp", "listen"] ++
        (match user with
         | some u => if u = "" then [] else ["--user", u]
         | none => []) ++
        (match workspace with
         | some w => if w = "" then [] else ["--workspace", w]
         | none => []) := by
  rcases user with _ | u <;> rcases workspace with _ | w <;>
    simp only [nativeArgs, jsTruthy, jsNeqEmptyString] <;>
    first
    | rfl
    | (by_cases hu : u = "" <;> by_cases hw : w = "" <;>
        simp [hu, hw, Option.getD])
    | (by_cases hu : u = "" <;> simp [hu, Option.getD])
    | (by_cases hw : w = "" <;> simp [hw, Option.getD])

/-- A dockerfile document on the file scheme matches `DOCUMENT_SELECTOR`. -/
theorem selectorMatches_dockerfile (d : TextDocument)
    (h1 : d.languageId = "dockerfile") (h2 : d.scheme = "file") :
    selectorMatches DOCUMENT_SELECTOR d = true := by
  simp [selectorMatches, DOCUMENT_SELECTOR, filterMatches, h1, h2]

/-- A dockerfile document does not match the compose selector. -/
theorem selectorMatches_compose_of_dockerfile (d : TextDocument)
    (h1 : d.languageId = "dockerfile") :
    selectorMatches composeDocumentSelector d = false := by
  simp [selectorMatches, composeDocumentSelector, filterMatches, h1]

/-! ## Claim theorems -/

/-- C1: on every activation the native session is started iff discovery
returns true, the fallback dockerfile session iff discovery returns
false, the compose session's presence depends only on its own
configuration flag (independent of discovery), at most one session per
backend kind exists, and a dockerfile document on the file scheme is
served by exactly one started session. -/
theorem activation_session_routing (discovery : Bool) (cfg : DockerConfig) :
    ((∃ s ∈ startedSessions discovery cfg, s.kind = BackendKind.native) ↔
      discovery = true) ∧
    ((∃ s ∈ startedSessions discovery cfg, s.kind = BackendKind.fallbackDockerfile) ↔
      discovery = false) ∧
    ((∃ s ∈ startedSessions discovery cfg, s.kind = BackendKind.compose) ↔
      composeEnabled cfg = true) ∧
    (∀ k : BackendKind,
      ((startedSessions discovery cfg).filter (fun s => s.kind == k)).length ≤ 1) ∧
    (∀ d : TextDocument, d.languageId = "dockerfile" → d.scheme = "file" →
      ((startedSessions discovery cfg).filter
        (fun s => selectorMatches s.selector d)).length = 1) := by
  have routing : ∀ d : TextDocument, d.languageId = "dockerfile" → d.scheme = "file" →
      ((startedSessions discovery cfg).filter
        (fun s => selectorMatches s.selector d)).length = 1 := by
    intro d h1 h2
    cases discovery <;> cases h : composeEnabled cfg <;>
      simp [startedSessions, h, nativeSession, fallbackSession, composeSession,
        selectorMatches_dockerfile d h1 h2, selectorMatches_compose_of_dockerfile d h1]
  refine ⟨?_, ?_, ?_, ?_, routing⟩ <;>
    cases discovery <;> cases h : composeEnabled cfg <;>
      simp [startedSessions, h, nativeSession, fallbackSession, composeSession] <;>
      intro k <;> cases k <;> simp

/-- C1 witness: with discovery succeeding and all settings undefined,
exactly one started session serves a dockerfile document. -/
theorem activation_session_routing_witness :
    ((startedSessions true sampleConfig).filter
      (fun s => selectorMatches s.selector sampleDockerfileDocument)).length = 1 :=
  (activation_session_routing true sampleConfig).2.2.2.2 sampleDockerfileDocument rfl rfl

/-- C2 (code bug): after any activation, at least one of the client
globals read by `deactivateInternal` is undefined, so the body always
throws a `TypeError` internally and the `Promise.all` of the three
stops is never awaited; on the native path (discovery true) not a
single `stop()` is even initiated, leaving the native and compose
sessions running. -/
theorem deactivate_stops_incomplete (discovery : Bool) (cfg : DockerConfig) :
    (deactivateInternal (globalsAfterActivation discovery cfg)).threwInternally = true ∧
    (deactivateInternal (globalsAfterActivation discovery cfg)).allStopsAwaited = false ∧
    (discovery = true →
      (deactivateInternal (globalsAfterActivation discovery cfg)).stopsInitiated = []) := by
  cases discovery <;> cases h : composeEnabled cfg <;>
    simp [deactivateInternal, globalsAfterActivation, h]

/-- C2 witness: concretely, after a native-path activation with default
settings, deactivation initiates no stop at all. -/
theorem deactivate_stops_incomplete_witness :
    (deactivateInternal (globalsAfterActivation true sampleConfig)).stopsInitiated = [] :=
  (deactivate_stops_incomplete true sampleConfig).2.2 rfl

/-- C3: `discoverDockerLsp` is a total boolean function of the probe
outcome, returning true exactly when the probe resolves with a truthy
result; every thrown error and every falsy result yields false. -/
theorem discoverDockerLsp_never_raises (probe : ProbeOutcome) :
    discoverDockerLsp probe = true ↔
      ∃ v, probe = ProbeOutcome.resolved v ∧ v.truthy = true := by
  cases probe with
  | resolved v => cases hv : v.truthy <;> simp [discoverDockerLsp, hv]
  | thrown m => simp [discoverDockerLsp]

/-- C3 witness: a resolved truthy probe yields true; a thrown probe
yields false. -/
theorem discoverDockerLsp_never_raises_witness :
    discoverDockerLsp (ProbeOutcome.resolved (JsValue.boolean true)) = true ∧
    discoverDockerLsp (ProbeOutcome.thrown "spawn docker ENOENT") = false :=
  ⟨(discoverDockerLsp_never_raises (ProbeOutcome.resolved (JsValue.boolean true))).mpr
      ⟨JsValue.boolean true, rfl, rfl⟩,
   by
    have h := (discoverDockerLsp_never_raises (ProbeOutcome.thrown "spawn docker ENOENT"))
    cases hd : discoverDockerLsp (ProbeOutcome.thrown "spawn docker ENOENT") with
    | false => rfl
    | true =>
      obtain ⟨v, hv, -⟩ := h.mp hd
      exact absurd hv (by simp)⟩

/-- C4: when `enableDockerComposeLanguageService` is false, compose
activation fails with `UserCancelledError('languageServiceDisabled')`
(not a generic error) before the client is constructed or started, so
no compose server process is spawned. -/
theorem compose_disabled_cancelled_before_spawn (cfg : DockerConfig)
    (h : composeEnabled cfg = false) :
    (composeActivation cfg).2 =
      some (ActivationError.userCancelled "languageServiceDisabled") ∧
    ComposeStep.constructClient ∉ (composeActivation cfg).1 ∧
    ComposeStep.startClient ∉ (composeActivation cfg).1 := by
  simp [composeActivation, h]

/-- C4 witness: with the flag set to false, activation errs with the
user-cancelled condition and never reaches the start step. -/
theorem compose_disabled_cancelled_before_spawn_witness :
    (composeActivation sampleDisabledConfig).2 =
      some (ActivationError.userCancelled "languageServiceDisabled") ∧
    ComposeStep.startClient ∉ (composeActivation sampleDisabledConfig).1 :=
  ⟨(compose_disabled_cancelled_before_spawn sampleDisabledConfig rfl).1,
   (compose_disabled_cancelled_before_spawn sampleDisabledConfig rfl).2.2⟩

/-- C5 counterexample: a configuration-change event affecting the
backend-identity setting DockerLsp.User, handled on the native path,
produces only two log lines and a docker/login request — no session is
stopped, no discovery is re-run, and no replacement session is started,
contradicting the claimed restart. -/
theorem backend_setting_change_no_restart_counterexample :
    configChangeActions true sampleConfig { affected := ["DockerLsp.User"] } =
      [Action.logInfo BackendKind.native, Action.logInfo BackendKind.native,
       Action.requestDockerLogin BackendKind.native none none] ∧
    Action.stopSession BackendKind.native ∉
      configChangeActions true sampleConfig { affected := ["DockerLsp.User"] } ∧
    Action.runDiscovery ∉
      configChangeActions true sampleConfig { affected := ["DockerLsp.User"] } ∧
    Action.startSession BackendKind.native ∉
      configChangeActions true sampleConfig { affected := ["DockerLsp.User"] } ∧
    Action.startSession BackendKind.fallbackDockerfile ∉
      configChangeActions true sampleConfig { affected := ["DockerLsp.User"] } := by
  refine ⟨rfl, ?_, ?_, ?_, ?_⟩ <;> decide

/-- C5 (amended): a change affecting docker.dockerPath reconfigures the
docker runtime client in place; on the native path a change affecting
DockerLsp.User or DockerLsp.Workspace sends a docker/login request with
the freshly read user and workspace settings to the running native
client; no configuration-change handler ever stops a session, re-runs
discovery, or starts a replacement session. -/
theorem backend_setting_change_actions (discovery : Bool) (cfg : DockerConfig)
    (e : ConfigChangeEvent) :
    (Action.reconfigureDockerClient ∈ configChangeActions discovery cfg e ↔
      e.affects "docker.dockerPath" = true) ∧
    (discovery = true →
      (Action.requestDockerLogin BackendKind.native cfg.dockerLspUser cfg.dockerLspWorkspace ∈
          configChangeActions discovery cfg e ↔
        (e.affects "DockerLsp.User" || e.affects "DockerLsp.Workspace") = true)) ∧
    (∀ k, Action.stopSession k ∉ configChangeActions discovery cfg e) ∧
    (∀ k, Action.startSession k ∉ configChangeActions discovery cfg e) ∧
    Action.runDiscovery ∉ configChangeActions discovery cfg e := by
  cases discovery <;>
    cases h1 : e.affects "docker.environment" <;>
    cases h2 : e.affects "docker.dockerPath" <;>
    cases h3 : e.affects "docker.composeCommand" <;>
    cases h4 : (e.affects "DockerLsp.User" || e.affects "DockerLsp.Workspace") <;>
    simp [configChangeActions, environmentChangedHandler, dockerCommandChangedHandler,
      nativeConfigChangedHandler, fallbackConfigurationHandler, h1, h2, h3, h4]

/-- C5 witness: a dockerPath-affecting event on the fallback path
reconfigures the docker runtime client and stops no session. -/
theorem backend_setting_change_actions_witness :
    Action.reconfigureDockerClient ∈
      configChangeActions false sampleConfig { affected := ["docker.dockerPath"] } ∧
    Action.stopSession BackendKind.fallbackDockerfile ∉
      configChangeActions false sampleConfig { affected := ["docker.dockerPath"] } :=
  ⟨(backend_setting_change_actions false sampleConfig
      { affected := ["docker.dockerPath"] }).1.mpr rfl,
   (backend_setting_change_actions false sampleConfig
      { affected := ["docker.dockerPath"] }).2.2.1 BackendKind.fallbackDockerfile⟩

/-- C7: a configuration-change event invokes the docker runtime
client's reconfigure exactly when it affects docker.dockerPath and the
compose runtime client's reconfigure exactly when it affects
docker.composeCommand, and no handler ever stops, starts, or replaces a
language-server session; events affecting neither key invoke no
reconfigure. -/
theorem runtime_client_reconfigure_frame (discovery : Bool) (cfg : DockerConfig)
    (e : ConfigChangeEvent) :
    (Action.reconfigureDockerClient ∈ configChangeActions discovery cfg e ↔
      e.affects "docker.dockerPath" = true) ∧
    (Action.reconfigureComposeClient ∈ configChangeActions discovery cfg e ↔
      e.affects "docker.composeCommand" = true) ∧
    (∀ k, Action.stopSession k ∉ configChangeActions discovery cfg e) ∧
    (∀ k, Action.startSession k ∉ configChangeActions discovery cfg e) := by
  cases discovery <;>
    cases h1 : e.affects "docker.environment" <;>
    cases h2 : e.affects "docker.dockerPath" <;>
    cases h3 : e.affects "docker.composeCommand" <;>
    cases h4 : (e.affects "DockerLsp.User" || e.affects "DockerLsp.Workspace") <;>
    simp [configChangeActions, environmentChangedHandler, dockerCommandChangedHandler,
      nativeConfigChangedHandler, fallbackConfigurationHandler, h1, h2, h3, h4]

/-- C7 witness: an event affecting only docker.composeCommand
reconfigures exactly the compose runtime client and stops nothing. -/
theorem runtime_client_reconfigure_frame_witness :
    Action.reconfigureComposeClient ∈
      configChangeActions true sampleConfig { affected := ["docker.composeCommand"] } ∧
    Action.reconfigureDockerClient ∉
      configChangeActions true sampleConfig { affected := ["docker.composeCommand"] } ∧
    Action.stopSession BackendKind.compose ∉
      configChangeActions true sampleConfig { affected := ["docker.composeCommand"] } :=
  ⟨(runtime_client_reconfigure_frame true sampleConfig
      { affected := ["docker.composeCommand"] }).2.1.mpr rfl,
   fun hmem =>
    absurd ((runtime_client_reconfigure_frame true sampleConfig
      { affected := ["docker.composeCommand"] }).1.mp hmem) (by decide),
   (runtime_client_reconfigure_frame true sampleConfig
      { affected := ["docker.composeCommand"] }).2.2.1 BackendKind.compose⟩

/-- C6 counterexample: the compose telemetry interception uses
`Object.assign`, which overwrites: a measurement key already present in
the context (sharedKey = 1) ends up with the event's value
(sharedKey = 2), so a pre-existing entry is not left unchanged. -/
theorem telemetry_merge_overwrites_counterexample :
    sampleTelemetryContext.measurements "sharedKey" = some 1 ∧
    (composeTelemetryHandler sampleTelemetryContext sampleTelemetryEvent).measurements
        "sharedKey" = some 2 ∧
    (composeTelemetryHandler sampleTelemetryContext sampleTelemetryEvent).measurements
        "sharedKey" ≠ sampleTelemetryContext.measurements "sharedKey" := by
  refine ⟨rfl, rfl, ?_⟩
  decide

/-- C6 (amended): the event name and both suppress flags are copied onto
the context, and the event's measurement and property maps are merged
with the event's entries taking precedence: every key defined by the
event receives the event's value (overwriting any pre-existing entry),
and every key not defined by the event keeps the context's value. -/
theorem compose_telemetry_event_precedence (context : TelemetryContext)
    (evtArgs : ComposeTelemetryEvent) :
    ((composeTelemetryHandler context evtArgs).suppressAll = evtArgs.suppressAll) ∧
    ((composeTelemetryHandler context evtArgs).suppressIfSuccessful =
      evtArgs.suppressIfSuccessful) ∧
    (∀ k v, evtArgs.measurements k = some v →
      (composeTelemetryHandler context evtArgs).measurements k = some v) ∧
    (∀ k, evtArgs.measurements k = none →
      (composeTelemetryHandler context evtArgs).measurements k =
        context.measurements k) ∧
    (∀ k v, evtArgs.properties k = some v →
      (composeTelemetryHandler context evtArgs).properties k = some v) ∧
    (∀ k, k ≠ "langServerEventName" → evtArgs.properties k = none →
      (composeTelemetryHandler context evtArgs).properties k =
        context.properties k) ∧
    (evtArgs.properties "langServerEventName" = none →
      (composeTelemetryHandler context evtArgs).properties "langServerEventName" =
        some evtArgs.eventName) := by
  refine ⟨rfl, rfl, ?_, ?_, ?_, ?_, ?_⟩
  · intro k v hk
    simp [composeTelemetryHandler, objectAssign, hk]
  · intro k hk
    simp [composeTelemetryHandler, objectAssign, hk]
  · intro k v hk
    simp [composeTelemetryHandler, objectAssign, hk]
  · intro k hne hk
    simp [composeTelemetryHandler, objectAssign, hk, hne]
  · intro hk
    simp [composeTelemetryHandler, objectAssign, hk]

/-- C6 witness: a property key absent from the event keeps the
context's value. -/
theorem compose_telemetry_event_precedence_witness :
    (composeTelemetryHandler sampleTelemetryContext sampleTelemetryEvent).properties
      "unrelatedKey" = sampleTelemetryContext.properties "unrelatedKey" :=
  (compose_telemetry_event_precedence sampleTelemetryContext
    sampleTelemetryEvent).2.2.2.2.2.1 "unrelatedKey" (by decide) rfl

/-- C8: the native backend launches the configured engine binary
(docker.dockerPath, defaulting to docker when unset) over stdio with
arguments lsp listen plus the optional user/workspace flags; the
fallback dockerfile and compose backends launch bundled server.js
scripts over the ipc transport with the node-ipc argument. -/
theorem backend_launch_shape (cfg : DockerConfig) :
    ((nativeSession cfg).launch =
      ServerLaunch.command (dockerCommand cfg.dockerPath) TransportKind.stdio
        (["lsp", "listen"] ++
          (match cfg.dockerLspUser with
           | some u => if u = "" then [] else ["--user", u]
           | none => []) ++
          (match cfg.dockerLspWorkspace with
           | some w => if w = "" then [] else ["--workspace", w]
           | none => []))) ∧
    (cfg.dockerPath = none → dockerCommand cfg.dockerPath = "docker") ∧
    fallbackSession.launch =
      ServerLaunch.moduleScript fallbackServerModule TransportKind.ipc ["--node-ipc"] ∧
    composeSession.launch =
      ServerLaunch.moduleScript composeServerModule TransportKind.ipc ["--node-ipc"] := by
  refine ⟨?_, ?_, rfl, rfl⟩
  · simp [nativeSession, nativeServerRun, nativeArgs_characterization]
  · intro h
    simp [dockerCommand, h]

/-- C8 witness: with dockerPath unset the engine binary defaults to
docker, and the fallback launch is the bundled ipc script. -/
theorem backend_launch_shape_witness :
    dockerCommand sampleConfig.dockerPath = "docker" ∧
    fallbackSession.launch =
      ServerLaunch.moduleScript fallbackServerModule TransportKind.ipc ["--node-ipc"] :=
  ⟨(backend_launch_shape sampleConfig).2.1 rfl,
   (backend_launch_shape sampleConfig).2.2.1⟩

/-- C9: when the fallback dockerfile session is active (discovery
false), every configuration-change event — whatever keys it affects —
sends the workspace/didChangeConfiguration notification with null
settings to the fallback server, and the native and compose sessions
never receive that notification. -/
theorem fallback_configuration_broadcast (discovery : Bool) (cfg : DockerConfig)
    (e : ConfigChangeEvent) :
    ((Action.notifyDidChangeConfigurationNull BackendKind.fallbackDockerfile ∈
        configChangeActions discovery cfg e) ↔ discovery = false) ∧
    Action.notifyDidChangeConfigurationNull BackendKind.native ∉
      configChangeActions discovery cfg e ∧
    Action.notifyDidChangeConfigurationNull BackendKind.compose ∉
      configChangeActions discovery cfg e := by
  cases discovery <;>
    cases h1 : e.affects "docker.environment" <;>
    cases h2 : e.affects "docker.dockerPath" <;>
    cases h3 : e.affects "docker.composeCommand" <;>
    cases h4 : (e.affects "DockerLsp.User" || e.affects "DockerLsp.Workspace") <;>
    simp [configChangeActions, environmentChangedHandler, dockerCommandChangedHandler,
      nativeConfigChangedHandler, fallbackConfigurationHandler, h1, h2, h3, h4]

/-- C9 witness: an event affecting no observed key at all still causes
the null-settings notification to the fallback server. -/
theorem fallback_configuration_broadcast_witness :
    Action.notifyDidChangeConfigurationNull BackendKind.fallbackDockerfile ∈
      configChangeActions false sampleConfig { affected := [] } :=
  (fallback_configuration_broadcast false sampleConfig { affected := [] }).1.mpr rfl

/-- C10: the user flag (respectively workspace flag) is appended to the
native argument list exactly when the corresponding setting is defined
and not the empty string, and an empty-string setting yields argument
lists identical to an absent setting. -/
theorem native_flags_iff_defined_nonempty (user workspace : Option String) :
    (nativeArgs user workspace =
      ["lsp", "listen"] ++
        (if user ≠ none ∧ user ≠ some "" then ["--user", user.getD ""] else []) ++
        (if workspace ≠ none ∧ workspace ≠ some "" then
          ["--workspace", workspace.getD ""]
        else [])) ∧
    nativeArgs (some "") workspace = nativeArgs none workspace ∧
    nativeArgs user (some "") = nativeArgs user none := by
  refine ⟨?_, ?_, ?_⟩
  · rw [nativeArgs_characterization]
    rcases user with _ | u <;> rcases workspace with _ | w
    · simp
    · by_cases hw : w = "" <;> simp [hw]
    · by_cases hu : u = "" <;> simp [hu]
    · by_cases hu : u = "" <;> by_cases hw : w = "" <;> simp [hu, hw]
  · rw [nativeArgs_characterization, nativeArgs_characterization]
    simp
  · rw [nativeArgs_characterization, nativeArgs_characterization]
    simp

/-- C10 witness: an empty-string user setting produces the same
arguments as an absent user setting. -/
theorem native_flags_iff_defined_nonempty_witness :
    nativeArgs (some "") (some "myworkspace") = nativeArgs none (some "myworkspace") :=
  (native_flags_iff_defined_nonempty (some "") (some "myworkspace")).2.1

end VsCodeDocker
